import Mathlib

/-!
The class nav2_util::ServiceClient: a blocking service client over an asynchronous middleware

A shallow embedding of `nav2_util/service_client.hpp`.  The class drives four
collaborators it does not implement (the rclcpp client handle, the executor,
the logger and the process liveness flag).  They are modelled as an oracle
record `Collab`; every call the class makes to one of them is appended to a
trace of `Event`s, so the theorems can speak about what was called, in which
order and with which arguments.
-/

namespace nav2_util

/-- The `std::chrono` duration arguments handed to collaborators.  The integer
representations carry their tick count; `duration<float>` (seconds) carries an
uninterpreted value of type `F`, which the class only passes through. -/
inductive Duration (F : Type) where
  | nanoseconds (count : Int)
  | milliseconds (count : Int)
  | seconds (count : Int)
  | float_seconds (count : F)
  deriving DecidableEq, Repr

/-- The value of `std::chrono::nanoseconds::max()` (64-bit signed count). -/
def nanoseconds_max : Int := 2 ^ 63 - 1

/-- The completion codes of `rclcpp::spin_until_future_complete`. -/
inductive FutureReturnCode where
  | SUCCESS
  | INTERRUPTED
  | TIMEOUT
  deriving DecidableEq, Repr

/-- Logger severities of the `RCLCPP_*` logging statements, in increasing order. -/
inductive Severity where
  | DEBUG
  | INFO
  | WARN
  | ERROR
  | FATAL
  deriving DecidableEq, Repr

/-- Numeric rank of a severity (`DEBUG` lowest). -/
def Severity.rank : Severity → Nat
  | .DEBUG => 0
  | .INFO => 1
  | .WARN => 2
  | .ERROR => 3
  | .FATAL => 4

/-- One call made by the class to a collaborator. -/
inductive Event (F Req Fut : Type) where
  /-- The call `client_->wait_for_service(timeout)`. -/
  | probe (timeout : Duration F)
  /-- A logging statement `RCLCPP_<severity>(node_->get_logger(), ...)`, with the formatted text. -/
  | log (severity : Severity) (text : String)
  /-- The call `client_->async_send_request(request)`. -/
  | submit (request : Req)
  /-- The call `rclcpp::spin_until_future_complete(node_, future[, timeout])`;
  `none` when the timeout argument is omitted. -/
  | spin (future : Fut) (timeout : Option (Duration F))
  /-- The call `future_result.get()`. -/
  | get (future : Fut)
  /-- The call `rclcpp::ok()`. -/
  | ok
  /-- The call `rclcpp::sleep_for(duration)`. -/
  | sleep (duration : Duration F)
  deriving DecidableEq, Repr

/-- The collaborators, as oracles.  `wait_for_service i t` is the answer of the
`i`-th availability probe (counting from 0) when asked with timeout `t`;
`ok i` is the `i`-th reading of the process liveness flag. -/
structure Collab (F Req Resp Fut : Type) where
  wait_for_service : Nat → Duration F → Bool
  async_send_request : Req → Fut
  spin_until_future_complete : Fut → Option (Duration F) → FutureReturnCode
  future_get : Fut → Option Resp
  ok : Nat → Bool

/-- What has happened so far: the number of availability probes and liveness
readings already made, and the calls made to the collaborators, oldest first. -/
structure State (F Req Fut : Type) where
  probes : Nat
  ok_reads : Nat
  trace : List (Event F Req Fut)
  deriving DecidableEq, Repr

/-- The state before any call. -/
def State.init {F Req Fut : Type} : State F Req Fut :=
  { probes := 0, ok_reads := 0, trace := [] }

section Primitives

variable {F Req Resp Fut : Type}

/-- Appends one event to the trace. -/
def State.emit (s : State F Req Fut) (e : Event F Req Fut) : State F Req Fut :=
  { s with trace := s.trace ++ [e] }

/-- The call `client_->wait_for_service(timeout)`. -/
def client_wait_for_service (c : Collab F Req Resp Fut) (timeout : Duration F)
    (s : State F Req Fut) : Bool × State F Req Fut :=
  (c.wait_for_service s.probes timeout,
    { s with probes := s.probes + 1, trace := s.trace ++ [Event.probe timeout] })

/-- The call `rclcpp::ok()`. -/
def rclcpp_ok (c : Collab F Req Resp Fut) (s : State F Req Fut) : Bool × State F Req Fut :=
  (c.ok s.ok_reads, { s with ok_reads := s.ok_reads + 1, trace := s.trace ++ [Event.ok] })

end Primitives

section ServiceClient

variable {F Req Resp Fut : Type}

/-- The text of the exception thrown when the one-second probe fails. -/
def not_available_text (service_name : String) : String :=
  service_name ++ " service client not available"

/-- The text of the debug trace written before a request is submitted. -/
def send_async_text (service_name : String) : String :=
  service_name ++ " service client: send async request"

/-- The text of the exception thrown when the drive loop does not report SUCCESS. -/
def request_failed_text (service_name : String) : String :=
  service_name ++ " service client: async_send_request failed"

/-- The text of the exception thrown when the process stops during the wait. -/
def interrupted_text (service_name : String) : String :=
  service_name ++ " service client: interrupted while waiting for service"

/-- The raising overload `ResponseType::SharedPtr invoke(request, timeout = nanoseconds::max())`.
The result is `.error text` for `throw std::runtime_error(text)` and `.ok p`
for a returned shared pointer `p` (`none` is the null pointer). -/
def invoke (c : Collab F Req Resp Fut) (service_name : String) (request : Req)
    (timeout : Int) (s : State F Req Fut) :
    Except String (Option Resp) × State F Req Fut :=
  let (available, s1) := client_wait_for_service c (Duration.seconds 1) s
  if !available then
    (.error (not_available_text service_name), s1)
  else
    let s2 := s1.emit (Event.log Severity.DEBUG (send_async_text service_name))
    let future_result := c.async_send_request request
    let s3 := s2.emit (Event.submit request)
    let code := c.spin_until_future_complete future_result (some (Duration.nanoseconds timeout))
    let s4 := s3.emit (Event.spin future_result (some (Duration.nanoseconds timeout)))
    if code != FutureReturnCode.SUCCESS then
      (.error (request_failed_text service_name), s4)
    else
      (.ok (c.future_get future_result), s4.emit (Event.get future_result))

/-- The boolean overload `bool invoke(request, response)`.  `response` is the
caller's shared pointer, passed by reference; the second component of the
result is its value when the call ends.  The drive loop is called without a
timeout argument. -/
def invoke_bool (c : Collab F Req Resp Fut) (service_name : String) (request : Req)
    (response : Option Resp) (s : State F Req Fut) :
    Except String Bool × Option Resp × State F Req Fut :=
  let (available, s1) := client_wait_for_service c (Duration.seconds 1) s
  if !available then
    (.ok false, response, s1.emit (Event.log Severity.ERROR (not_available_text service_name)))
  else
    let s2 := s1.emit (Event.log Severity.DEBUG (send_async_text service_name))
    let future_result := c.async_send_request request
    let s3 := s2.emit (Event.submit request)
    let code := c.spin_until_future_complete future_result none
    let s4 := s3.emit (Event.spin future_result none)
    if code != FutureReturnCode.SUCCESS then
      (.ok false, response, s4)
    else
      let response1 := c.future_get future_result
      (.ok response1.isSome, response1, s4.emit (Event.get future_result))

/-- The operation `bool isAvailable(duration<float> timeout = 1s)`. -/
def isAvailable (c : Collab F Req Resp Fut) (service_name : String) (timeout : F)
    (s : State F Req Fut) : Except String Bool × State F Req Fut :=
  let (available, s1) := client_wait_for_service c (Duration.float_seconds timeout) s
  if !available then
    (.ok false, s1.emit (Event.log Severity.INFO (not_available_text service_name)))
  else
    (.ok true, s1)

/-- The polling interval `sleep_dur` of `wait_for_service`. -/
def sleep_dur : Duration F := Duration.milliseconds 10

/-- The operation `void wait_for_service(timeout = nanoseconds::max())`, run for at most
`fuel` evaluations of the loop condition.  The first component is `none` when
the loop is still running after `fuel` probes, `some (.ok ())` when the
function returned and `some (.error text)` when it threw. -/
def wait_for_service (c : Collab F Req Resp Fut) (service_name : String) (timeout : Int) :
    Nat → State F Req Fut → Option (Except String Unit) × State F Req Fut
  | 0, s => (none, s)
  | fuel + 1, s =>
    let (available, s1) := client_wait_for_service c (Duration.nanoseconds timeout) s
    if !available then
      let (running, s2) := rclcpp_ok c s1
      if !running then
        (some (.error (interrupted_text service_name)), s2)
      else
        wait_for_service c service_name timeout fuel (s2.emit (Event.sleep sleep_dur))
    else
      (some (.ok ()), s1)

/-- The requests submitted in a trace, oldest first. -/
def submitted : List (Event F Req Fut) → List Req
  | [] => []
  | Event.submit r :: es => r :: submitted es
  | _ :: es => submitted es

/-- The drive-loop calls made in a trace, oldest first. -/
def driven : List (Event F Req Fut) → List (Fut × Option (Duration F))
  | [] => []
  | Event.spin f t :: es => (f, t) :: driven es
  | _ :: es => driven es

/-- The log entries written in a trace, oldest first. -/
def logged : List (Event F Req Fut) → List (Severity × String)
  | [] => []
  | Event.log v t :: es => (v, t) :: logged es
  | _ :: es => logged es

/-- The log entries of a trace at severity INFO or above (the DEBUG traces left out). -/
def failure_logs (es : List (Event F Req Fut)) : List (Severity × String) :=
  (logged es).filter (fun e => decide (Severity.INFO.rank ≤ e.1.rank))

/-- The availability probes made in a trace, oldest first, with their timeouts. -/
def probed : List (Event F Req Fut) → List (Duration F)
  | [] => []
  | Event.probe t :: es => t :: probed es
  | _ :: es => probed es

/-- The sleeps made in a trace, oldest first, with their durations. -/
def slept : List (Event F Req Fut) → List (Duration F)
  | [] => []
  | Event.sleep d :: es => d :: slept es
  | _ :: es => slept es

/-- The calls made by `k` consecutive iterations of the loop of `wait_for_service`
whose probe failed while the process was running: the probe, the liveness
reading and the 10 ms sleep, `k` times. -/
def failed_rounds (timeout : Int) : Nat → List (Event F Req Fut)
  | 0 => []
  | k + 1 =>
    [Event.probe (Duration.nanoseconds timeout), Event.ok, Event.sleep sleep_dur] ++
      failed_rounds timeout k

end ServiceClient

section Examples

/-- An endpoint that never becomes available while the process keeps running. -/
def never_available : Collab Int Nat Nat Nat :=
  { wait_for_service := fun _ _ => false
    async_send_request := fun r => r
    spin_until_future_complete := fun _ _ => FutureReturnCode.SUCCESS
    future_get := fun f => some f
    ok := fun _ => true }

/-- An available endpoint that answers request `r` with response `r + 1` through
the pending handle `100 + r`. -/
def successor_server : Collab Int Nat Nat Nat :=
  { wait_for_service := fun _ _ => true
    async_send_request := fun r => 100 + r
    spin_until_future_complete := fun _ _ => FutureReturnCode.SUCCESS
    future_get := fun f => some (f - 100 + 1)
    ok := fun _ => true }

/-- An available endpoint whose answer does not arrive before the drive loop gives up. -/
def slow_server : Collab Int Nat Nat Nat :=
  { wait_for_service := fun _ _ => true
    async_send_request := fun r => 100 + r
    spin_until_future_complete := fun _ _ => FutureReturnCode.TIMEOUT
    future_get := fun f => some (f - 100 + 1)
    ok := fun _ => true }

/-- An available endpoint whose pending handle resolves to the null pointer. -/
def null_server : Collab Int Nat Nat Nat :=
  { wait_for_service := fun _ _ => true
    async_send_request := fun r => 100 + r
    spin_until_future_complete := fun _ _ => FutureReturnCode.SUCCESS
    future_get := fun _ => none
    ok := fun _ => true }

/-- An endpoint that is unavailable for the first two probes and available from the third. -/
def late_server : Collab Int Nat Nat Nat :=
  { wait_for_service := fun i _ => decide (2 ≤ i)
    async_send_request := fun r => 100 + r
    spin_until_future_complete := fun _ _ => FutureReturnCode.SUCCESS
    future_get := fun f => some (f - 100 + 1)
    ok := fun _ => true }

/-- An endpoint that never becomes available, in a process whose liveness flag
reads running twice and stopped from the third reading. -/
def stopping_process : Collab Int Nat Nat Nat :=
  { wait_for_service := fun _ _ => false
    async_send_request := fun r => r
    spin_until_future_complete := fun _ _ => FutureReturnCode.SUCCESS
    future_get := fun f => some f
    ok := fun i => decide (i < 2) }

end Examples

section Theorems

variable {F Req Resp Fut : Type}

theorem submitted_append (xs ys : List (Event F Req Fut)) :
    submitted (xs ++ ys) = submitted xs ++ submitted ys := by
  induction xs with
  | nil => rfl
  | cons e es ih => cases e <;> simp [submitted, ih]

theorem driven_append (xs ys : List (Event F Req Fut)) :
    driven (xs ++ ys) = driven xs ++ driven ys := by
  induction xs with
  | nil => rfl
  | cons e es ih => cases e <;> simp [driven, ih]

/-- The two exception texts of the raising `invoke` never coincide, whatever
the service names: one ends in `e`, the other in `d`. -/
theorem request_failed_text_ne_not_available_text (n m : String) :
    request_failed_text n ≠ not_available_text m := by
  intro h
  have h1 := congrArg (fun t : String => t.data.reverse.head?) h
  simp [request_failed_text, not_available_text, String.data_append] at h1

/-- C1: when the one-second availability probe of the raising `invoke` answers
unavailable, the call throws `service_name + " service client not available"`;
the only collaborator call made is that probe (no request is submitted, the
executor is not driven), and the outcome is the same for every timeout. -/
theorem invoke_unavailable (c : Collab F Req Resp Fut) (service_name : String) (request : Req)
    (timeout : Int) (s : State F Req Fut)
    (h : c.wait_for_service s.probes (Duration.seconds 1) = false) :
    invoke c service_name request timeout s =
        (.error (service_name ++ " service client not available"),
          { s with probes := s.probes + 1,
                   trace := s.trace ++ [Event.probe (Duration.seconds 1)] }) ∧
      submitted (invoke c service_name request timeout s).2.trace = submitted s.trace ∧
      driven (invoke c service_name request timeout s).2.trace = driven s.trace ∧
      ∀ timeout2 : Int,
        invoke c service_name request timeout2 s = invoke c service_name request timeout s := by
  have e : ∀ t : Int, invoke c service_name request t s =
      (.error (service_name ++ " service client not available"),
        { s with probes := s.probes + 1,
                 trace := s.trace ++ [Event.probe (Duration.seconds 1)] }) := by
    intro t
    simp [invoke, client_wait_for_service, h, not_available_text]
  refine ⟨e timeout, ?_, ?_, ?_⟩
  · rw [e timeout]; simp [submitted_append, submitted]
  · rw [e timeout]; simp [driven_append, driven]
  · intro t; rw [e t, e timeout]

/-- The C1 theorem at an endpoint that is never available, with the default timeout. -/
theorem invoke_unavailable_witness :
    never_available.wait_for_service 0 (Duration.seconds 1) = false ∧
      invoke never_available "map_server" 7 nanoseconds_max State.init =
        (.error "map_server service client not available",
          { probes := 1, ok_reads := 0, trace := [Event.probe (Duration.seconds 1)] }) :=
  ⟨rfl, (invoke_unavailable never_available "map_server" 7 nanoseconds_max State.init rfl).1⟩

/-- C2: when the availability probe answers available and the drive loop on the
pending handle reports SUCCESS, the raising `invoke` throws nothing and returns
exactly the response held by the pending handle obtained for `request`; the
calls made are, in order, the probe, the debug trace, one submission of
`request`, one drive-loop call with the caller's timeout, and one `get`. -/
theorem invoke_success (c : Collab F Req Resp Fut) (service_name : String) (request : Req)
    (timeout : Int) (s : State F Req Fut)
    (ha : c.wait_for_service s.probes (Duration.seconds 1) = true)
    (hs : c.spin_until_future_complete (c.async_send_request request)
      (some (Duration.nanoseconds timeout)) = FutureReturnCode.SUCCESS) :
    invoke c service_name request timeout s =
        (.ok (c.future_get (c.async_send_request request)),
          { s with
            probes := s.probes + 1,
            trace := s.trace ++
              [Event.probe (Duration.seconds 1),
               Event.log Severity.DEBUG (service_name ++ " service client: send async request"),
               Event.submit request,
               Event.spin (c.async_send_request request) (some (Duration.nanoseconds timeout)),
               Event.get (c.async_send_request request)] }) ∧
      submitted (invoke c service_name request timeout s).2.trace =
        submitted s.trace ++ [request] := by
  have e : invoke c service_name request timeout s =
      (.ok (c.future_get (c.async_send_request request)),
        { s with
          probes := s.probes + 1,
          trace := s.trace ++
            [Event.probe (Duration.seconds 1),
             Event.log Severity.DEBUG (service_name ++ " service client: send async request"),
             Event.submit request,
             Event.spin (c.async_send_request request) (some (Duration.nanoseconds timeout)),
             Event.get (c.async_send_request request)] }) := by
    simp [invoke, client_wait_for_service, State.emit, ha, hs, send_async_text]
  refine ⟨e, ?_⟩
  rw [e]; simp [submitted_append, submitted]

/-- The C2 theorem at an available endpoint answering request 7 with response 8. -/
theorem invoke_success_witness :
    invoke successor_server "map_server" 7 0 State.init =
      (.ok (some 8),
        { probes := 1, ok_reads := 0,
          trace := [Event.probe (Duration.seconds 1),
                    Event.log Severity.DEBUG "map_server service client: send async request",
                    Event.submit 7,
                    Event.spin 107 (some (Duration.nanoseconds 0)),
                    Event.get 107] }) :=
  (invoke_success successor_server "map_server" 7 0 State.init rfl rfl).1

/-- C3: when the availability probe answers available and the drive loop
reports any code other than SUCCESS, the raising `invoke` throws
`service_name + " service client: async_send_request failed"`, the same text
for every such code; the text differs from the not-available text for every
service name; no response is returned and the pending handle is not read. -/
theorem invoke_request_failed (c : Collab F Req Resp Fut) (service_name : String)
    (request : Req) (timeout : Int) (s : State F Req Fut)
    (ha : c.wait_for_service s.probes (Duration.seconds 1) = true)
    (hs : c.spin_until_future_complete (c.async_send_request request)
      (some (Duration.nanoseconds timeout)) ≠ FutureReturnCode.SUCCESS) :
    invoke c service_name request timeout s =
        (.error (service_name ++ " service client: async_send_request failed"),
          { s with
            probes := s.probes + 1,
            trace := s.trace ++
              [Event.probe (Duration.seconds 1),
               Event.log Severity.DEBUG (service_name ++ " service client: send async request"),
               Event.submit request,
               Event.spin (c.async_send_request request)
                 (some (Duration.nanoseconds timeout))] }) ∧
      (∀ name : String,
        name ++ " service client: async_send_request failed" ≠
          name ++ " service client not available") ∧
      ∀ r : Option Resp, (invoke c service_name request timeout s).1 ≠ .ok r := by
  have e : invoke c service_name request timeout s =
      (.error (service_name ++ " service client: async_send_request failed"),
        { s with
          probes := s.probes + 1,
          trace := s.trace ++
            [Event.probe (Duration.seconds 1),
             Event.log Severity.DEBUG (service_name ++ " service client: send async request"),
             Event.submit request,
             Event.spin (c.async_send_request request)
               (some (Duration.nanoseconds timeout))] }) := by
    simp [invoke, client_wait_for_service, State.emit, ha, hs, send_async_text,
      request_failed_text]
  refine ⟨e, fun name => request_failed_text_ne_not_available_text name name, ?_⟩
  intro r; rw [e]; simp

/-- The C3 theorem at an available endpoint whose drive loop reports TIMEOUT. -/
theorem invoke_request_failed_witness :
    invoke slow_server "map_server" 7 0 State.init =
        (.error "map_server service client: async_send_request failed",
          { probes := 1, ok_reads := 0,
            trace := [Event.probe (Duration.seconds 1),
                      Event.log Severity.DEBUG "map_server service client: send async request",
                      Event.submit 7,
                      Event.spin 107 (some (Duration.nanoseconds 0))] }) ∧
      slow_server.spin_until_future_complete 107 (some (Duration.nanoseconds 0)) =
        FutureReturnCode.TIMEOUT :=
  ⟨(invoke_request_failed slow_server "map_server" 7 0 State.init rfl (by decide)).1, rfl⟩

theorem logged_append (xs ys : List (Event F Req Fut)) :
    logged (xs ++ ys) = logged xs ++ logged ys := by
  induction xs with
  | nil => rfl
  | cons e es ih => cases e <;> simp [logged, ih]

theorem failure_logs_append (xs ys : List (Event F Req Fut)) :
    failure_logs (xs ++ ys) = failure_logs xs ++ failure_logs ys := by
  simp [failure_logs, logged_append]

theorem probed_append (xs ys : List (Event F Req Fut)) :
    probed (xs ++ ys) = probed xs ++ probed ys := by
  induction xs with
  | nil => rfl
  | cons e es ih => cases e <;> simp [probed, ih]

/-- C4: the boolean `invoke` never throws; it returns true exactly when the
availability probe answered available, the drive loop reported SUCCESS and the
resolved response is not null; it returns false when the drive loop reported
SUCCESS with a null response; and when it returns true the caller's response
is the resolved response. -/
theorem invoke_bool_result (c : Collab F Req Resp Fut) (service_name : String)
    (request : Req) (response : Option Resp) (s : State F Req Fut) :
    ∃ b : Bool,
      (invoke_bool c service_name request response s).1 = .ok b ∧
      (b = true ↔
        (c.wait_for_service s.probes (Duration.seconds 1) = true ∧
          c.spin_until_future_complete (c.async_send_request request) none =
            FutureReturnCode.SUCCESS ∧
          c.future_get (c.async_send_request request) ≠ none)) ∧
      (c.wait_for_service s.probes (Duration.seconds 1) = true →
        c.spin_until_future_complete (c.async_send_request request) none =
            FutureReturnCode.SUCCESS →
        c.future_get (c.async_send_request request) = none → b = false) ∧
      (b = true →
        (invoke_bool c service_name request response s).2.1 =
          c.future_get (c.async_send_request request)) := by
  cases ha : c.wait_for_service s.probes (Duration.seconds 1) with
  | false =>
    exact ⟨false, by simp [invoke_bool, client_wait_for_service, ha], by simp, by simp, by simp⟩
  | true =>
    by_cases hs : c.spin_until_future_complete (c.async_send_request request) none =
        FutureReturnCode.SUCCESS
    · refine ⟨(c.future_get (c.async_send_request request)).isSome, ?_, ?_, ?_, ?_⟩
      · simp [invoke_bool, client_wait_for_service, ha, hs]
      · simp [hs, Option.isSome_iff_ne_none]
      · intro _ _ hn; simp [hn]
      · intro _; simp [invoke_bool, client_wait_for_service, ha, hs]
    · exact ⟨false, by simp [invoke_bool, client_wait_for_service, ha, hs], by simp [hs],
        by simp [hs], by simp⟩

/-- C8: `isAvailable(timeout)` never throws and returns the answer of one
availability probe made with that timeout; the probe is its only collaborator
call besides logging (no request is submitted, the executor is not driven); it
writes one log entry (INFO, `service_name + " service client not available"`)
when the answer is false and none when it is true. -/
theorem isAvailable_result (c : Collab F Req Resp Fut) (service_name : String)
    (timeout : F) (s : State F Req Fut) :
    (isAvailable c service_name timeout s).1 =
        .ok (c.wait_for_service s.probes (Duration.float_seconds timeout)) ∧
      (isAvailable c service_name timeout s).2.probes = s.probes + 1 ∧
      probed (isAvailable c service_name timeout s).2.trace =
        probed s.trace ++ [Duration.float_seconds timeout] ∧
      submitted (isAvailable c service_name timeout s).2.trace = submitted s.trace ∧
      driven (isAvailable c service_name timeout s).2.trace = driven s.trace ∧
      (isAvailable c service_name timeout s).2.trace =
        s.trace ++ Event.probe (Duration.float_seconds timeout) ::
          (if c.wait_for_service s.probes (Duration.float_seconds timeout) = true then []
           else [Event.log Severity.INFO (service_name ++ " service client not available")]) ∧
      logged (isAvailable c service_name timeout s).2.trace =
        logged s.trace ++
          (if c.wait_for_service s.probes (Duration.float_seconds timeout) = true then []
           else [(Severity.INFO, service_name ++ " service client not available")]) := by
  cases ha : c.wait_for_service s.probes (Duration.float_seconds timeout) <;>
    simp [isAvailable, client_wait_for_service, State.emit, ha, not_available_text,
      probed_append, probed, submitted_append, submitted, driven_append, driven,
      logged_append, logged]

/-- C9 as stated fails: with an available endpoint whose answer does not arrive,
the boolean `invoke` returns false and the only log entry written is the DEBUG
trace; the same holds when the response resolves to the null pointer. -/
theorem invoke_bool_false_without_failure_log :
    (invoke_bool slow_server "map_server" 7 none State.init).1 = .ok false ∧
      failure_logs (invoke_bool slow_server "map_server" 7 none State.init).2.2.trace = [] ∧
      logged (invoke_bool slow_server "map_server" 7 none State.init).2.2.trace =
        [(Severity.DEBUG, "map_server service client: send async request")] ∧
      (invoke_bool null_server "map_server" 7 none State.init).1 = .ok false ∧
      failure_logs (invoke_bool null_server "map_server" 7 none State.init).2.2.trace = [] := by
  refine ⟨rfl, ?_, rfl, rfl, ?_⟩ <;> decide

/-- C9, amended: a false result of the boolean `invoke` caused by an unavailable
endpoint comes with exactly one log entry at INFO or above, namely (ERROR,
`service_name + " service client not available"`); whenever the probe answers
available, the call writes no log entry at INFO or above, only the DEBUG
trace. -/
theorem invoke_bool_failure_logs (c : Collab F Req Resp Fut) (service_name : String)
    (request : Req) (response : Option Resp) (s : State F Req Fut) :
    (c.wait_for_service s.probes (Duration.seconds 1) = false →
        (invoke_bool c service_name request response s).1 = .ok false ∧
        failure_logs (invoke_bool c service_name request response s).2.2.trace =
          failure_logs s.trace ++
            [(Severity.ERROR, service_name ++ " service client not available")]) ∧
      (c.wait_for_service s.probes (Duration.seconds 1) = true →
        failure_logs (invoke_bool c service_name request response s).2.2.trace =
          failure_logs s.trace ∧
        logged (invoke_bool c service_name request response s).2.2.trace =
          logged s.trace ++
            [(Severity.DEBUG, service_name ++ " service client: send async request")]) := by
  constructor
  · intro ha
    simp [invoke_bool, client_wait_for_service, State.emit, ha, not_available_text,
      failure_logs, logged_append, logged, Severity.rank]
  · intro ha
    by_cases hs : c.spin_until_future_complete (c.async_send_request request) none =
        FutureReturnCode.SUCCESS <;>
      simp [invoke_bool, client_wait_for_service, State.emit, ha, hs, send_async_text,
        failure_logs, logged_append, logged, Severity.rank]

/-- C10: the boolean `invoke` leaves the caller's response as passed in when the
probe answered unavailable or the drive loop did not report SUCCESS, and
overwrites it with the resolved response when the drive loop reported SUCCESS,
also when that response is null and the call returns false. -/
theorem invoke_bool_out_response (c : Collab F Req Resp Fut) (service_name : String)
    (request : Req) (response : Option Resp) (s : State F Req Fut) :
    (c.wait_for_service s.probes (Duration.seconds 1) = false →
        (invoke_bool c service_name request response s).2.1 = response) ∧
      (c.wait_for_service s.probes (Duration.seconds 1) = true →
        c.spin_until_future_complete (c.async_send_request request) none ≠
            FutureReturnCode.SUCCESS →
        (invoke_bool c service_name request response s).2.1 = response) ∧
      (c.wait_for_service s.probes (Duration.seconds 1) = true →
        c.spin_until_future_complete (c.async_send_request request) none =
            FutureReturnCode.SUCCESS →
        (invoke_bool c service_name request response s).2.1 =
          c.future_get (c.async_send_request request)) ∧
      (c.wait_for_service s.probes (Duration.seconds 1) = true →
        c.spin_until_future_complete (c.async_send_request request) none =
            FutureReturnCode.SUCCESS →
        c.future_get (c.async_send_request request) = none →
        (invoke_bool c service_name request response s).1 = .ok false ∧
          (invoke_bool c service_name request response s).2.1 = none) := by
  refine ⟨?_, ?_, ?_, ?_⟩
  · intro ha; simp [invoke_bool, client_wait_for_service, ha]
  · intro ha hs; simp [invoke_bool, client_wait_for_service, ha, hs]
  · intro ha hs; simp [invoke_bool, client_wait_for_service, ha, hs]
  · intro ha hs hn; simp [invoke_bool, client_wait_for_service, ha, hs, hn]

theorem slept_append (xs ys : List (Event F Req Fut)) :
    slept (xs ++ ys) = slept xs ++ slept ys := by
  induction xs with
  | nil => rfl
  | cons e es ih => cases e <;> simp [slept, ih]

theorem probed_failed_rounds (timeout : Int) (k : Nat) :
    probed (failed_rounds timeout k : List (Event F Req Fut)) =
      List.replicate k (Duration.nanoseconds timeout) := by
  induction k with
  | zero => rfl
  | succ k ih => simp [failed_rounds, probed, ih, List.replicate_succ]

theorem slept_failed_rounds (timeout : Int) (k : Nat) :
    slept (failed_rounds timeout k : List (Event F Req Fut)) =
      List.replicate k (Duration.milliseconds 10) := by
  induction k with
  | zero => rfl
  | succ k ih => simp [failed_rounds, slept, ih, List.replicate_succ, sleep_dur]

/-- Unrolling: `k` failed probes, each followed by a liveness reading of
running, consume `k` units of fuel and leave the loop at its next probe. -/
theorem wait_for_service_unroll (c : Collab F Req Resp Fut) (service_name : String)
    (timeout : Int) (k fuel : Nat) (s : State F Req Fut)
    (hu : ∀ i, i < k → c.wait_for_service (s.probes + i) (Duration.nanoseconds timeout) = false)
    (hr : ∀ i, i < k → c.ok (s.ok_reads + i) = true) :
    wait_for_service c service_name timeout (k + fuel) s =
      wait_for_service c service_name timeout fuel
        { probes := s.probes + k, ok_reads := s.ok_reads + k,
          trace := s.trace ++ failed_rounds timeout k } := by
  induction k generalizing s with
  | zero => simp [failed_rounds]
  | succ k ih =>
    have h0 := hu 0 (Nat.succ_pos k)
    have r0 := hr 0 (Nat.succ_pos k)
    simp only [Nat.add_zero] at h0 r0
    have e : k + 1 + fuel = (k + fuel) + 1 := by omega
    rw [e, wait_for_service]
    simp only [client_wait_for_service, rclcpp_ok, State.emit, h0, r0]
    simp only [Bool.not_false, Bool.not_true, if_true, Bool.false_eq_true, if_false]
    rw [ih]
    · simp [failed_rounds, Nat.add_assoc, Nat.add_comm 1 k]
    · intro i hi
      have := hu (i + 1) (by omega)
      simpa [Nat.add_assoc, Nat.add_comm 1 i] using this
    · intro i hi
      have := hr (i + 1) (by omega)
      simpa [Nat.add_assoc, Nat.add_comm 1 i] using this

/-- The loop ends in one of two ways only: a normal return or the interrupted exception. -/
theorem wait_for_service_ends (c : Collab F Req Resp Fut) (service_name : String)
    (timeout : Int) (fuel : Nat) (s : State F Req Fut) (r : Except String Unit)
    (h : (wait_for_service c service_name timeout fuel s).1 = some r) :
    r = .ok () ∨ r = .error (interrupted_text service_name) := by
  induction fuel generalizing s with
  | zero => simp [wait_for_service] at h
  | succ n ih =>
    rw [wait_for_service] at h
    simp only [client_wait_for_service, rclcpp_ok] at h
    cases ha : c.wait_for_service s.probes (Duration.nanoseconds timeout) with
    | true =>
      simp [ha] at h
      exact Or.inl h.symm
    | false =>
      cases hk : c.ok s.ok_reads with
      | false =>
        simp [ha, hk] at h
        exact Or.inr h.symm
      | true =>
        simp only [ha, hk, Bool.not_false, Bool.not_true, if_true, Bool.false_eq_true,
          if_false] at h
        exact ih _ h

/-- C5 as stated fails: with the finite timeout of 1 ns, an endpoint that stays
unavailable and a process that stays running, the call is still polling after
three iterations, each probe started after the 10 ms sleep of the previous one,
and no amount of fuel makes it return or throw. -/
theorem wait_for_service_polls_past_timeout :
    wait_for_service never_available "map_server" 1 3 State.init =
        (none,
          { probes := 3, ok_reads := 3,
            trace := [Event.probe (Duration.nanoseconds 1), Event.ok,
                      Event.sleep (Duration.milliseconds 10),
                      Event.probe (Duration.nanoseconds 1), Event.ok,
                      Event.sleep (Duration.milliseconds 10),
                      Event.probe (Duration.nanoseconds 1), Event.ok,
                      Event.sleep (Duration.milliseconds 10)] }) ∧
      ¬ ∃ (fuel : Nat) (r : Except String Unit),
        (wait_for_service never_available "map_server" 1 fuel State.init).1 = some r := by
  refine ⟨rfl, ?_⟩
  rintro ⟨fuel, r, h⟩
  have e := wait_for_service_unroll never_available "map_server" 1 fuel 0 State.init
    (fun _ _ => rfl) (fun _ _ => rfl)
  rw [Nat.add_zero] at e
  rw [e] at h
  simp [wait_for_service] at h

/-- C5, amended: the timeout of `wait_for_service` bounds each single probe, not
the whole wait.  For every timeout, if the endpoint stays unavailable and the
process stays running, the call never ends: after any number `n` of iterations
it has made `n` probes, each with the full timeout, `n` liveness readings and
`n` sleeps of 10 ms, and is about to probe again.  Whenever the call does end,
it ends with a normal return or with the interrupted exception; there is no
timeout failure. -/
theorem wait_for_service_never_times_out (c : Collab F Req Resp Fut) (service_name : String)
    (timeout : Int) (s : State F Req Fut)
    (hu : ∀ i, c.wait_for_service (s.probes + i) (Duration.nanoseconds timeout) = false)
    (hr : ∀ i, c.ok (s.ok_reads + i) = true) :
    (∀ n : Nat,
      wait_for_service c service_name timeout n s =
        (none,
          { probes := s.probes + n, ok_reads := s.ok_reads + n,
            trace := s.trace ++ failed_rounds timeout n })) ∧
      (∀ n : Nat,
        probed (failed_rounds timeout n : List (Event F Req Fut)) =
            List.replicate n (Duration.nanoseconds timeout) ∧
          slept (failed_rounds timeout n : List (Event F Req Fut)) =
            List.replicate n (Duration.milliseconds 10)) ∧
      ∀ (c2 : Collab F Req Resp Fut) (n : Nat) (s2 : State F Req Fut) (r : Except String Unit),
        (wait_for_service c2 service_name timeout n s2).1 = some r →
          r = .ok () ∨
            r = .error (service_name ++ " service client: interrupted while waiting for service") := by
  refine ⟨?_, fun n => ⟨probed_failed_rounds timeout n, slept_failed_rounds timeout n⟩, ?_⟩
  · intro n
    have e := wait_for_service_unroll c service_name timeout n 0 s
      (fun i _ => hu i) (fun i _ => hr i)
    rw [Nat.add_zero] at e
    rw [e, wait_for_service]
  · intro c2 n s2 r h
    exact wait_for_service_ends c2 service_name timeout n s2 r h

/-- The amended C5 theorem at an endpoint that is never available, with a timeout of 5 ns. -/
theorem wait_for_service_never_times_out_witness :
    wait_for_service never_available "map_server" 5 2 State.init =
      (none,
        { probes := 2, ok_reads := 2,
          trace := [Event.probe (Duration.nanoseconds 5), Event.ok,
                    Event.sleep (Duration.milliseconds 10),
                    Event.probe (Duration.nanoseconds 5), Event.ok,
                    Event.sleep (Duration.milliseconds 10)] }) :=
  (wait_for_service_never_times_out never_available "map_server" 5 State.init
    (fun _ => rfl) (fun _ => rfl)).1 2

/-- C6: if the first `k` probes fail with the liveness flag reading running after
each, and the next probe fails with the flag reading stopped, then
`wait_for_service` throws
`service_name + " service client: interrupted while waiting for service"`.
The flag is read after every failed probe; after the reading of stopped there
is no sleep and no further probe.  Nothing is assumed about later probes. -/
theorem wait_for_service_interrupted (c : Collab F Req Resp Fut) (service_name : String)
    (timeout : Int) (k : Nat) (s : State F Req Fut)
    (hu : ∀ i, i ≤ k → c.wait_for_service (s.probes + i) (Duration.nanoseconds timeout) = false)
    (hr : ∀ i, i < k → c.ok (s.ok_reads + i) = true)
    (hstop : c.ok (s.ok_reads + k) = false) :
    ∀ fuel : Nat, k + 1 ≤ fuel →
      wait_for_service c service_name timeout fuel s =
        (some (.error
            (service_name ++ " service client: interrupted while waiting for service")),
          { probes := s.probes + k + 1, ok_reads := s.ok_reads + k + 1,
            trace := s.trace ++ failed_rounds timeout k ++
              [Event.probe (Duration.nanoseconds timeout), Event.ok] }) := by
  intro fuel hf
  obtain ⟨m, rfl⟩ : ∃ m, fuel = k + (m + 1) := ⟨fuel - (k + 1), by omega⟩
  rw [wait_for_service_unroll c service_name timeout k (m + 1) s
    (fun i hi => hu i (Nat.le_of_lt hi)) hr, wait_for_service]
  simp [client_wait_for_service, rclcpp_ok, hu k (Nat.le_refl k), hstop, interrupted_text]

/-- The C6 theorem at a process that stops after two failed probes. -/
theorem wait_for_service_interrupted_witness :
    wait_for_service stopping_process "map_server" nanoseconds_max 3 State.init =
      (some (.error "map_server service client: interrupted while waiting for service"),
        { probes := 3, ok_reads := 3,
          trace := [Event.probe (Duration.nanoseconds nanoseconds_max), Event.ok,
                    Event.sleep (Duration.milliseconds 10),
                    Event.probe (Duration.nanoseconds nanoseconds_max), Event.ok,
                    Event.sleep (Duration.milliseconds 10),
                    Event.probe (Duration.nanoseconds nanoseconds_max), Event.ok] }) :=
  wait_for_service_interrupted stopping_process "map_server" nanoseconds_max 2 State.init
    (fun _ _ => rfl) (by decide) rfl 3 (by decide)

/-- C7: if the first `k` probes fail, the liveness flag reads running after each
of them, and probe `k + 1` succeeds, then `wait_for_service` returns without
error right after that probe, having made exactly `k + 1` probes and exactly
`k` sleeps of 10 ms, one after each failed probe. -/
theorem wait_for_service_returns (c : Collab F Req Resp Fut) (service_name : String)
    (timeout : Int) (k : Nat) (s : State F Req Fut)
    (hu : ∀ i, i < k → c.wait_for_service (s.probes + i) (Duration.nanoseconds timeout) = false)
    (hr : ∀ i, i < k → c.ok (s.ok_reads + i) = true)
    (ha : c.wait_for_service (s.probes + k) (Duration.nanoseconds timeout) = true) :
    ∀ fuel : Nat, k + 1 ≤ fuel →
      wait_for_service c service_name timeout fuel s =
          (some (.ok ()),
            { probes := s.probes + k + 1, ok_reads := s.ok_reads + k,
              trace := s.trace ++ failed_rounds timeout k ++
                [Event.probe (Duration.nanoseconds timeout)] }) ∧
        probed (wait_for_service c service_name timeout fuel s).2.trace =
          probed s.trace ++ List.replicate (k + 1) (Duration.nanoseconds timeout) ∧
        slept (wait_for_service c service_name timeout fuel s).2.trace =
          slept s.trace ++ List.replicate k (Duration.milliseconds 10) := by
  intro fuel hf
  obtain ⟨m, rfl⟩ : ∃ m, fuel = k + (m + 1) := ⟨fuel - (k + 1), by omega⟩
  have e : wait_for_service c service_name timeout (k + (m + 1)) s =
      (some (.ok ()),
        { probes := s.probes + k + 1, ok_reads := s.ok_reads + k,
          trace := s.trace ++ failed_rounds timeout k ++
            [Event.probe (Duration.nanoseconds timeout)] }) := by
    rw [wait_for_service_unroll c service_name timeout k (m + 1) s hu hr, wait_for_service]
    simp [client_wait_for_service, ha]
  refine ⟨e, ?_, ?_⟩
  · rw [e]
    simp [probed_append, probed_failed_rounds, probed, List.replicate_succ', List.append_assoc]
  · rw [e]
    simp [slept_append, slept_failed_rounds, slept]

/-- The C7 theorem at an endpoint that becomes available at the third probe. -/
theorem wait_for_service_returns_witness :
    wait_for_service late_server "map_server" nanoseconds_max 3 State.init =
      (some (.ok ()),
        { probes := 3, ok_reads := 2,
          trace := [Event.probe (Duration.nanoseconds nanoseconds_max), Event.ok,
                    Event.sleep (Duration.milliseconds 10),
                    Event.probe (Duration.nanoseconds nanoseconds_max), Event.ok,
                    Event.sleep (Duration.milliseconds 10),
                    Event.probe (Duration.nanoseconds nanoseconds_max)] }) :=
  (wait_for_service_returns late_server "map_server" nanoseconds_max 2 State.init
    (by decide) (fun _ _ => rfl) rfl 3 (by decide)).1

end Theorems

end nav2_util
